import Mathlib

/-!
Shallow embedding of the Ajali incident-reporting backend
(src/backend/app_postgresql.py and src/backend/app_postresql.py).

Database tables become lists of typed rows; each Flask handler becomes a
pure function from its inputs and the relevant store state to a response
plus the updated state.  Time is modelled in microseconds since the epoch
(UTC), so that the source's `replace(microsecond=0)` truncation is visible.
External library functions (werkzeug's password hashing and filename
sanitisation, ISO timestamp parsing) are passed in as parameters.
-/

namespace Ajali

/-- Microseconds per second; timestamps are Nat microseconds (UTC). -/
def usecPerSec : Nat := 1000000

/-- `dt.replace(microsecond=0)`: drop the sub-second part of a timestamp. -/
def truncToSecond (t : Nat) : Nat := t - t % usecPerSec

/-- `timedelta(hours=24)` in microseconds. -/
def tokenTTL : Nat := 24 * 3600 * usecPerSec

/-- Row of the `users` table. -/
structure UserRow where
  user_id : String
  username : String
  password_hash : String
deriving Repr, DecidableEq

/-- Row of the `api_tokens` table; `created_at` defaults to the insert time. -/
structure TokenRow where
  token : String
  user_id : String
  created_at : Nat
deriving Repr, DecidableEq

/-- Row of the `incidents` table (superset of the two schema variants,
minus the `status` column which no handler reads or writes). -/
structure IncidentRow where
  incident_id : String
  user_id : String
  title : String
  description : String
  lat : String
  long : String
  image_url : Option String
  created_at : Nat
deriving Repr, DecidableEq

/-- HTTP response: status code plus the `message` field of the JSON body. -/
structure Response where
  status : Nat
  message : String
deriving Repr, DecidableEq

/-- Python truthiness of `request.form.get(k)` / `data.get(k)`:
absent keys give `None` and both `None` and `""` are falsy. -/
def falsyStr (s : Option String) : Bool :=
  match s with
  | none => true
  | some v => v == ""

/-- `SELECT ... FROM users WHERE username = %s` (first match). -/
def lookupUser (users : List UserRow) (uname : String) : Option UserRow :=
  users.find? (fun u => u.username == uname)

/-- `SELECT ... FROM api_tokens WHERE token = %s` (first match). -/
def lookupToken (toks : List TokenRow) (tok : String) : Option TokenRow :=
  toks.find? (fun r => r.token == tok)

/-- `SELECT ... FROM incidents WHERE incident_id = %s` (first match). -/
def lookupIncident (incs : List IncidentRow) (incident_id : String) :
    Option IncidentRow :=
  incs.find? (fun r => r.incident_id == incident_id)

/-- The two SQL statements of token issuance in `login`:
`DELETE FROM api_tokens WHERE user_id = %s` then
`INSERT INTO api_tokens (token, user_id) VALUES (%s, %s)`
(with `created_at` defaulting to the current timestamp). -/
def issueTokens (toks : List TokenRow) (uid tok : String) (now : Nat) :
    List TokenRow :=
  toks.filter (fun r => !(r.user_id == uid)) ++ [⟨tok, uid, now⟩]

/-- All token rows belonging to one user. -/
def tokensFor (toks : List TokenRow) (uid : String) : List TokenRow :=
  toks.filter (fun r => r.user_id == uid)

/-- Invariant: at most one live token per user. -/
def atMostOneTokenPerUser (toks : List TokenRow) : Prop :=
  ∀ uid : String, (tokensFor toks uid).length ≤ 1

/-- Outcome of the token check inside `token_required` (after extraction). -/
inductive TokenCheck where
  | missing
  | invalid
  | expired
  | valid (user_id : String)
deriving Repr, DecidableEq

/-- Core of `token_required`: `if not token` check, the `api_tokens` lookup,
then `if now - created_at_aware > timedelta(hours=24)` with both timestamps
truncated to whole seconds (UTC).  Nat subtraction matches the Python
comparison: a negative Python difference is never `> 24h`, and the clamped
Nat difference `0` is not either. -/
def validateToken (toks : List TokenRow) (tok : String) (now : Nat) :
    TokenCheck :=
  if tok == "" then .missing
  else
    match lookupToken toks tok with
    | none => .invalid
    | some row =>
      if truncToSecond now - truncToSecond row.created_at > tokenTTL then
        .expired
      else
        .valid row.user_id

/-- Split a character list at every occurrence of `sep`, Python
`str.split(sep)` style for a one-character separator: no merging of
adjacent separators and no stripping, so the empty string yields one
empty field. -/
def splitCharsOn (sep : Char) : List Char → List (List Char)
  | [] => [[]]
  | c :: rest =>
    match splitCharsOn sep rest with
    | [] => if c = sep then [[], [c]] else [[c]]
    | h :: t => if c = sep then [] :: h :: t else (c :: h) :: t

/-- Python `s.split(" ")`. -/
def pySplitSpace (s : String) : List String :=
  (splitCharsOn ' ' s.data).map (fun l => String.mk l)

/-- Result of `request.headers['Authorization'].split(" ")[1]`. -/
inductive ExtractResult where
  | noHeader
  | indexError
  | token (t : String)
deriving Repr, DecidableEq

/-- Token extraction at the top of `token_required`'s wrapper: if the
`Authorization` header is absent the token stays `None`; otherwise the
header is split on single spaces and element `[1]` is taken, which raises
`IndexError` when the split yields fewer than two parts (this happens
outside the handler's try block). -/
def extractToken (authHeader : Option String) : ExtractResult :=
  match authHeader with
  | none => .noHeader
  | some h =>
    match pySplitSpace h with
    | _ :: t :: _ => .token t
    | _ => .indexError

/-- What the guard does with a request. -/
inductive GuardOutcome where
  | response (r : Response)
  | runHandler (user_id : String)
  | pythonError (e : String)
deriving Repr, DecidableEq

/-- The full `token_required` wrapper: extraction, the missing-token check,
the database lookup and the expiry check; on success the wrapped handler
runs with the token's `user_id`. -/
def token_required (authHeader : Option String) (toks : List TokenRow)
    (now : Nat) : GuardOutcome :=
  match extractToken authHeader with
  | .indexError => .pythonError "IndexError"
  | .noHeader => .response ⟨401, "Token is missing!"⟩
  | .token t =>
    match validateToken toks t now with
    | .missing => .response ⟨401, "Token is missing!"⟩
    | .invalid => .response ⟨401, "Token is invalid or expired!"⟩
    | .expired => .response ⟨401, "Token is invalid or expired!"⟩
    | .valid uid => .runHandler uid

/-- Result of `register`. -/
structure RegisterResult where
  response : Response
  user_id : Option String
  users : List UserRow
deriving Repr, DecidableEq

/-- The `/register` handler.  `gen` stands for werkzeug's
`generate_password_hash(password, method=scrypt)`; `freshId` for
`str(uuid.uuid4())`. -/
def register (gen : String → String) (users : List UserRow)
    (username password : Option String) (freshId : String) : RegisterResult :=
  if falsyStr username || falsyStr password then
    ⟨⟨400, "Username and password are required."⟩, none, users⟩
  else
    let uname := username.getD ""
    match lookupUser users uname with
    | some _ => ⟨⟨409, "User already exists."⟩, none, users⟩
    | none =>
      ⟨⟨201, "User created successfully."⟩, some freshId,
       users ++ [⟨freshId, uname, gen (password.getD "")⟩]⟩

/-- Result of `login`. -/
structure LoginOutput where
  response : Response
  token : Option String
  db_tokens : List TokenRow
deriving Repr, DecidableEq

/-- The `/login` handler.  `chk hash pw` stands for werkzeug's
`check_password_hash`; `freshToken` for `str(uuid.uuid4())`.  On success
all old tokens of the user are deleted and one new row is inserted. -/
def login (chk : String → String → Bool) (users : List UserRow)
    (toks : List TokenRow) (username password : Option String)
    (freshToken : String) (now : Nat) : LoginOutput :=
  if falsyStr username || falsyStr password then
    ⟨⟨400, "Username and password are required."⟩, none, toks⟩
  else
    match lookupUser users (username.getD "") with
    | none => ⟨⟨401, "Invalid username or password."⟩, none, toks⟩
    | some u =>
      if !(chk u.password_hash (password.getD "")) then
        ⟨⟨401, "Invalid username or password."⟩, none, toks⟩
      else
        ⟨⟨200, "Login successful."⟩, some freshToken,
         issueTokens toks u.user_id freshToken now⟩

/-- `ALLOWED_EXTENSIONS = {png, jpg, jpeg, gif}`. -/
def ALLOWED_EXTENSIONS : List String := ["png", "jpg", "jpeg", "gif"]

/-- `allowed_file`: a dot is present and the part after the last dot,
lower-cased, is in the allow-list (`rsplit('.', 1)[1].lower()`). -/
def allowed_file (filename : String) : Bool :=
  let parts := splitCharsOn '.' filename.data
  decide (2 ≤ parts.length) &&
    ALLOWED_EXTENSIONS.contains
      (String.mk ((parts.getLastD []).map Char.toLower))

/-- An entry of `request.files`; werkzeug's FileStorage is falsy exactly
when its filename is empty. -/
structure FileUpload where
  filename : String
deriving Repr, DecidableEq

/-- `request.form` of a create request. -/
structure CreateForm where
  title : Option String
  description : Option String
  lat : Option String
  long : Option String
deriving Repr, DecidableEq

/-- Result of a create handler: response, incidents table, and the list of
filenames saved into the uploads directory. -/
structure CreateResult where
  response : Response
  incidents : List IncidentRow
  files : List String
deriving Repr, DecidableEq

/-- Shared tail of the app_postgresql.py create handler: validate the four
required form fields, then insert the row. -/
def pgInsertStep (user_id : String) (form : CreateForm)
    (image_url : Option String) (freshIncId : String) (now : Nat)
    (incidents : List IncidentRow) (files : List String) : CreateResult :=
  if falsyStr form.title || falsyStr form.description || falsyStr form.lat
      || falsyStr form.long then
    ⟨⟨400, "Missing required fields"⟩, incidents, files⟩
  else
    ⟨⟨201, "Incident created successfully"⟩,
     incidents ++ [⟨freshIncId, user_id, form.title.getD "",
       form.description.getD "", form.lat.getD "", form.long.getD "",
       image_url, now⟩],
     files⟩

/-- The app_postgresql.py `/incidents` POST handler: the image upload is
processed (and the file saved) BEFORE the required-field validation.
`secure` stands for werkzeug's `secure_filename`; `freshUuid` and
`freshIncId` for the generated UUIDs. -/
def create_incident_pg (secure : String → String) (user_id : String)
    (form : CreateForm) (image : Option FileUpload)
    (freshUuid freshIncId : String) (now : Nat)
    (incidents : List IncidentRow) (files : List String) : CreateResult :=
  match image with
  | none => pgInsertStep user_id form none freshIncId now incidents files
  | some f =>
    if !(f.filename == "") && allowed_file f.filename then
      let uniqueName := freshUuid ++ "_" ++ secure f.filename
      pgInsertStep user_id form (some ("/uploads/" ++ uniqueName))
        freshIncId now incidents (files ++ [uniqueName])
    else if !(f.filename == "") then
      ⟨⟨400, "Invalid file type."⟩, incidents, files⟩
    else
      pgInsertStep user_id form none freshIncId now incidents files

/-- The app_postresql.py `/incidents` POST handler: required fields are
validated FIRST, then the image is handled (a present but falsy or
disallowed file is rejected), then the row is inserted.  `parseIso` stands
for `datetime.fromisoformat` after the Z replacement (with `none` for a
`ValueError`, which falls back to the database default timestamp). -/
def create_incident_pr (secure : String → String)
    (parseIso : String → Option Nat) (user_id : String) (form : CreateForm)
    (created_at_str : Option String) (image : Option FileUpload)
    (freshUuid freshIncId : String) (now : Nat)
    (incidents : List IncidentRow) (files : List String) : CreateResult :=
  if falsyStr form.title || falsyStr form.description || falsyStr form.lat
      || falsyStr form.long then
    ⟨⟨400, "All required fields (title, description, lat, long) are missing."⟩,
     incidents, files⟩
  else
    let createdAt :=
      match created_at_str with
      | some s => if s == "" then now else (parseIso s).getD now
      | none => now
    let insert := fun (image_url : Option String) (files1 : List String) =>
      (⟨⟨201, "Incident created successfully."⟩,
        incidents ++ [⟨freshIncId, user_id, form.title.getD "",
          form.description.getD "", form.lat.getD "", form.long.getD "",
          image_url, createdAt⟩],
        files1⟩ : CreateResult)
    match image with
    | none => insert none files
    | some f =>
      if !(f.filename == "") && allowed_file f.filename then
        let uniqueName := freshUuid ++ "_" ++ secure f.filename
        insert (some ("/uploads/" ++ uniqueName)) (files ++ [uniqueName])
      else
        ⟨⟨400, "Invalid file type."⟩, incidents, files⟩

/-- `request.form` of an update request (every field optional). -/
structure UpdateForm where
  title : Option String
  description : Option String
  lat : Option String
  long : Option String
deriving Repr, DecidableEq

/-- Effect of the dynamically built `UPDATE incidents SET ...` on one row:
exactly the fields present in the form (plus a freshly stored image url)
are overwritten; everything else keeps its value. -/
def applyPatch (r : IncidentRow) (form : UpdateForm)
    (image_url : Option String) : IncidentRow :=
  { r with
    title := form.title.getD r.title
    description := form.description.getD r.description
    lat := form.lat.getD r.lat
    long := form.long.getD r.long
    image_url :=
      match image_url with
      | some u => some u
      | none => r.image_url }

/-- Result of the update handler. -/
structure UpdateResult where
  response : Response
  incidents : List IncidentRow
  files : List String
deriving Repr, DecidableEq

/-- The `/incidents/<incident_id>` PUT handler (identical logic in both
variants): existence check, then ownership check, then optional image save
(a disallowed upload is silently ignored here, unlike create), then the
no-fields check, then the dynamic UPDATE followed by a re-read. -/
def update_incident (secure : String → String) (user_id incident_id : String)
    (form : UpdateForm) (image : Option FileUpload) (freshUuid : String)
    (incidents : List IncidentRow) (files : List String) : UpdateResult :=
  match lookupIncident incidents incident_id with
  | none => ⟨⟨404, "Incident not found."⟩, incidents, files⟩
  | some inc =>
    if !(inc.user_id == user_id) then
      ⟨⟨403, "You do not have permission to update this incident."⟩,
       incidents, files⟩
    else
      let imageStep :=
        match image with
        | some f =>
          if !(f.filename == "") && allowed_file f.filename then
            let uniqueName := freshUuid ++ "_" ++ secure f.filename
            (some ("/uploads/" ++ uniqueName), files ++ [uniqueName])
          else (none, files)
        | none => (none, files)
      let image_url := imageStep.1
      if form.title.isNone && form.description.isNone && form.lat.isNone
          && form.long.isNone && image_url.isNone then
        ⟨⟨400, "No fields provided for update."⟩, incidents, imageStep.2⟩
      else
        ⟨⟨200, "Incident updated successfully."⟩,
         incidents.map (fun r =>
           if r.incident_id == incident_id then applyPatch r form image_url
           else r),
         imageStep.2⟩

/-- The `/incidents/<incident_id>` DELETE handler (identical in both
variants): existence check, NO ownership check (it is commented out in the
source), then `DELETE FROM incidents WHERE incident_id = %s`. -/
def delete_incident (user_id incident_id : String)
    (incidents : List IncidentRow) : Response × List IncidentRow :=
  match lookupIncident incidents incident_id with
  | none => (⟨404, "Incident not found."⟩, incidents)
  | some _ =>
    (⟨200, "Incident deleted successfully."⟩,
     incidents.filter (fun r => !(r.incident_id == incident_id)))

/-! ### Helper lemmas -/

theorem lookupToken_eq_none_of_forall (toks : List TokenRow) (tok : String)
    (h : ∀ r ∈ toks, ¬r.token = tok) : lookupToken toks tok = none := by
  rw [lookupToken, List.find?_eq_none]
  intro r hr
  simpa using h r hr

theorem validateToken_invalid_of_none (toks : List TokenRow) (tok : String)
    (now : Nat) (htok : ¬tok = "") (h : lookupToken toks tok = none) :
    validateToken toks tok now = .invalid := by
  rw [validateToken]
  simp [htok, h]

theorem mem_issueTokens {r : TokenRow} {toks : List TokenRow}
    {uid tok : String} {now : Nat} (h : r ∈ issueTokens toks uid tok now) :
    (r ∈ toks ∧ ¬r.user_id = uid) ∨ r = ⟨tok, uid, now⟩ := by
  rw [issueTokens] at h
  rcases List.mem_append.mp h with h1 | h1
  · have h2 := List.mem_filter.mp h1
    exact Or.inl ⟨h2.1, by simpa using h2.2⟩
  · simp only [List.mem_singleton] at h1
    exact Or.inr h1

theorem tokensFor_issueTokens_self (toks : List TokenRow) (uid tok : String)
    (now : Nat) :
    tokensFor (issueTokens toks uid tok now) uid = [⟨tok, uid, now⟩] := by
  rw [tokensFor, issueTokens, List.filter_append]
  have h1 : ((toks.filter fun r => !(r.user_id == uid)).filter
      fun r => r.user_id == uid) = [] := by
    apply List.filter_eq_nil_iff.mpr
    intro a ha
    have h2 := (List.mem_filter.mp ha).2
    simp only [Bool.not_eq_eq_eq_not, Bool.not_true, beq_eq_false_iff_ne,
      ne_eq] at h2
    simpa using h2
  rw [h1]
  simp

theorem tokensFor_issueTokens_other (toks : List TokenRow)
    (uid uid2 tok : String) (now : Nat) (h : ¬uid2 = uid) :
    tokensFor (issueTokens toks uid tok now) uid2 = tokensFor toks uid2 := by
  rw [tokensFor, issueTokens, List.filter_append]
  have h2 : (List.filter (fun r => r.user_id == uid2)
      [(⟨tok, uid, now⟩ : TokenRow)]) = [] := by
    simp only [List.filter_eq_nil_iff, List.mem_singleton, forall_eq]
    simp only [beq_iff_eq]
    exact fun hh => h hh.symm
  rw [h2, List.append_nil, List.filter_filter, tokensFor]
  apply List.filter_congr
  intro a _
  by_cases h3 : a.user_id = uid2
  · simp only [h3, beq_self_eq_true, Bool.true_and, Bool.and_true]
    simpa using h
  · simp [h3]

theorem atMostOne_issueTokens (toks : List TokenRow) (uid tok : String)
    (now : Nat) (h : atMostOneTokenPerUser toks) :
    atMostOneTokenPerUser (issueTokens toks uid tok now) := by
  intro uid2
  by_cases h2 : uid2 = uid
  · subst h2
    rw [tokensFor_issueTokens_self]
    simp
  · rw [tokensFor_issueTokens_other _ _ _ _ _ h2]
    exact h uid2

theorem login_success (chk : String → String → Bool) (users : List UserRow)
    (toks : List TokenRow) (uname p : String) (u : UserRow) (tok : String)
    (now : Nat) (hname : ¬uname = "") (hp : ¬p = "")
    (hu : lookupUser users uname = some u)
    (hchk : chk u.password_hash p = true) :
    login chk users toks (some uname) (some p) tok now =
      ⟨⟨200, "Login successful."⟩, some tok,
       issueTokens toks u.user_id tok now⟩ := by
  rw [login]
  simp [falsyStr, hname, hp, hu, hchk]

/-! ### Claims -/

/-- C2 (counterexample): the claim "validate fails with Expired at every
check time strictly greater than t0+24h" is false.  A token issued at
t0 = 0.5s still validates at check time 86400.6s, which is strictly
greater than t0 + 24h = 86400.5s, because both timestamps are truncated
to whole seconds before the comparison and the truncated difference is
then exactly 24h, not more. -/
theorem C2_counterexample :
    500000 + tokenTTL < 86400600000 ∧
    validateToken [⟨"tok1", "u1", 500000⟩] "tok1" 86400600000 =
      .valid "u1" := by
  exact ⟨by decide, by decide⟩

/-- C2 (amended): for a stored token row, validation succeeds at every
check time in the closed interval [t0, t0+24h]; it fails with Expired at
every check time ≥ t0 + 24h + 1s; and in general it fails with Expired
exactly when the second-truncated check time exceeds the second-truncated
issue time by more than 24h. -/
theorem C2_token_expiry (toks : List TokenRow) (tok : String)
    (row : TokenRow) (now : Nat) (htok : ¬tok = "")
    (hfind : lookupToken toks tok = some row) :
    (row.created_at ≤ now → now ≤ row.created_at + tokenTTL →
      validateToken toks tok now = .valid row.user_id) ∧
    (row.created_at + tokenTTL + usecPerSec ≤ now →
      validateToken toks tok now = .expired) ∧
    (validateToken toks tok now = .expired ↔
      tokenTTL < truncToSecond now - truncToSecond row.created_at) := by
  have hval : validateToken toks tok now =
      if truncToSecond now - truncToSecond row.created_at > tokenTTL
      then .expired else .valid row.user_id := by
    rw [validateToken]
    simp [htok, hfind]
  refine ⟨?_, ?_, ?_⟩
  · intro h1 h2
    have h3 : ¬(tokenTTL < truncToSecond now - truncToSecond row.created_at) := by
      simp only [tokenTTL, usecPerSec, truncToSecond] at h2 ⊢
      omega
    rw [hval, if_neg h3]
  · intro h1
    have h3 : tokenTTL < truncToSecond now - truncToSecond row.created_at := by
      simp only [tokenTTL, usecPerSec, truncToSecond] at h1 ⊢
      omega
    rw [hval, if_pos h3]
  · rw [hval]
    by_cases hc : tokenTTL < truncToSecond now - truncToSecond row.created_at
    · simp [hc]
    · simp [hc]

/-- C2 (witness): the amended theorem applied to a token issued at 1s,
checked at 5s (valid) and at 1s + 24h + 1s (expired). -/
theorem C2_witness :
    validateToken [⟨"tok1", "u1", 1000000⟩] "tok1" 5000000 = .valid "u1" ∧
    validateToken [⟨"tok1", "u1", 1000000⟩] "tok1"
      (1000000 + tokenTTL + usecPerSec) = .expired := by
  have h1 := C2_token_expiry [⟨"tok1", "u1", 1000000⟩] "tok1"
    ⟨"tok1", "u1", 1000000⟩ 5000000 (by decide) (by decide)
  have h2 := C2_token_expiry [⟨"tok1", "u1", 1000000⟩] "tok1"
    ⟨"tok1", "u1", 1000000⟩ (1000000 + tokenTTL + usecPerSec) (by decide)
    (by decide)
  exact ⟨h1.1 (by decide) (by decide), h2.2.1 (by decide)⟩

/-- C3: delete performs no ownership check (its result does not depend on
the acting user), returns NotFound exactly when the id is absent, and on
success removes every row with the given id. -/
theorem C3_delete_any_session (u1 u2 incident_id : String)
    (incidents : List IncidentRow) :
    delete_incident u1 incident_id incidents =
      delete_incident u2 incident_id incidents ∧
    (lookupIncident incidents incident_id = none →
      delete_incident u1 incident_id incidents =
        (⟨404, "Incident not found."⟩, incidents)) ∧
    (∀ inc, lookupIncident incidents incident_id = some inc →
      (delete_incident u1 incident_id incidents).1 =
        ⟨200, "Incident deleted successfully."⟩ ∧
      (delete_incident u1 incident_id incidents).2 =
        incidents.filter (fun r => !(r.incident_id == incident_id))) := by
  refine ⟨rfl, ?_, ?_⟩
  · intro h
    simp [delete_incident, h]
  · intro inc h
    simp [delete_incident, h]

/-- C3 (witness): a non-owner session deletes an existing incident with
the same outcome as any other session. -/
theorem C3_witness :
    (delete_incident "alice" "i1"
        [⟨"i1", "owner1", "t", "d", "1", "2", none, 0⟩] =
      delete_incident "bob" "i1"
        [⟨"i1", "owner1", "t", "d", "1", "2", none, 0⟩]) ∧
    (delete_incident "alice" "i1"
        [⟨"i1", "owner1", "t", "d", "1", "2", none, 0⟩]).1 =
      ⟨200, "Incident deleted successfully."⟩ := by
  have h := C3_delete_any_session "alice" "bob" "i1"
    [⟨"i1", "owner1", "t", "d", "1", "2", none, 0⟩]
  exact ⟨h.1, (h.2.2 ⟨"i1", "owner1", "t", "d", "1", "2", none, 0⟩
    (by decide)).1⟩

/-- C1: when login succeeds twice in sequence for the same user, each
login deletes every existing token row of that user and inserts exactly
one new row; the first-issued token is then absent from the store, so it
no longer validates, and the at-most-one-live-token-per-user invariant is
preserved. -/
theorem C1_single_live_token (chk : String → String → Bool)
    (users : List UserRow) (toks0 : List TokenRow) (uname p : String)
    (u : UserRow) (tok1 tok2 : String) (t1 t2 : Nat)
    (hname : ¬uname = "") (hp : ¬p = "") (htok1 : ¬tok1 = "")
    (hu : lookupUser users uname = some u)
    (hchk : chk u.password_hash p = true)
    (hfresh : ∀ r ∈ toks0, ¬r.token = tok1) (hne : ¬tok2 = tok1)
    (hinv : atMostOneTokenPerUser toks0) :
    login chk users toks0 (some uname) (some p) tok1 t1 =
      ⟨⟨200, "Login successful."⟩, some tok1,
       issueTokens toks0 u.user_id tok1 t1⟩ ∧
    login chk users (issueTokens toks0 u.user_id tok1 t1)
        (some uname) (some p) tok2 t2 =
      ⟨⟨200, "Login successful."⟩, some tok2,
       issueTokens (issueTokens toks0 u.user_id tok1 t1) u.user_id tok2 t2⟩ ∧
    lookupToken
      (issueTokens (issueTokens toks0 u.user_id tok1 t1) u.user_id tok2 t2)
      tok1 = none ∧
    (∀ now, validateToken
      (issueTokens (issueTokens toks0 u.user_id tok1 t1) u.user_id tok2 t2)
      tok1 now = .invalid) ∧
    tokensFor
      (issueTokens (issueTokens toks0 u.user_id tok1 t1) u.user_id tok2 t2)
      u.user_id = [⟨tok2, u.user_id, t2⟩] ∧
    atMostOneTokenPerUser
      (issueTokens (issueTokens toks0 u.user_id tok1 t1) u.user_id tok2 t2) := by
  have hlook : lookupToken
      (issueTokens (issueTokens toks0 u.user_id tok1 t1) u.user_id tok2 t2)
      tok1 = none := by
    apply lookupToken_eq_none_of_forall
    intro r hr
    rcases mem_issueTokens hr with ⟨hr1, hr2⟩ | hr1
    · rcases mem_issueTokens hr1 with ⟨hr3, _⟩ | hr3
      · exact hfresh r hr3
      · exact absurd (by rw [hr3]) hr2
    · rw [hr1]
      exact hne
  refine ⟨login_success chk users toks0 uname p u tok1 t1 hname hp hu hchk,
    login_success chk users _ uname p u tok2 t2 hname hp hu hchk,
    hlook,
    fun now => validateToken_invalid_of_none _ _ now htok1 hlook,
    tokensFor_issueTokens_self _ _ _ _,
    atMostOne_issueTokens _ _ _ _ (atMostOne_issueTokens _ _ _ _ hinv)⟩

/-- C1 (witness): a concrete user logs in twice; the first token is gone
from the store and the user holds exactly the second token. -/
theorem C1_witness :
    lookupToken (issueTokens (issueTokens [] "u1" "t1" 0) "u1" "t2" 5)
      "t1" = none ∧
    tokensFor (issueTokens (issueTokens [] "u1" "t1" 0) "u1" "t2" 5)
      "u1" = [⟨"t2", "u1", 5⟩] := by
  have h := C1_single_live_token (fun hs ps => hs == ps)
    [⟨"u1", "alice", "pw"⟩] [] "alice" "pw" ⟨"u1", "alice", "pw"⟩
    "t1" "t2" 0 5 (by decide) (by decide) (by decide) (by decide)
    (by decide) (by simp) (by decide) (by intro uid; simp [tokensFor])
  exact ⟨h.2.2.1, h.2.2.2.2.1⟩

/-- C9: the guard returns 401 MissingToken when the Authorization header
is absent, or when it is present but its second space-separated part is
empty ("Bearer "); but an Authorization header containing no space at all
(e.g. the empty header "" or the bare word "Bearer") makes token
extraction raise an uncaught IndexError — the extraction happens outside
the handler's try block — instead of the claimed 401. -/
theorem C9_missing_token_guard (toks : List TokenRow) (now : Nat) :
    token_required none toks now = .response ⟨401, "Token is missing!"⟩ ∧
    token_required (some "Bearer ") toks now =
      .response ⟨401, "Token is missing!"⟩ ∧
    extractToken (some "") = .indexError ∧
    token_required (some "") toks now = .pythonError "IndexError" ∧
    token_required (some "Bearer") toks now = .pythonError "IndexError" := by
  refine ⟨rfl, rfl, rfl, rfl, rfl⟩

/-- C9 (witness): the guard evaluated on an empty token store. -/
theorem C9_witness :
    token_required none [] 0 = .response ⟨401, "Token is missing!"⟩ ∧
    token_required (some "") [] 0 = .pythonError "IndexError" := by
  have h := C9_missing_token_guard [] 0
  exact ⟨h.1, h.2.2.2.1⟩

/-- C4: update by a non-owner yields 403 and leaves the incident table
(and even the uploads directory) unchanged; an absent id yields 404 for
every acting user, since existence is checked before ownership. -/
theorem C4_update_forbidden_or_notfound (secure : String → String)
    (uid incident_id : String) (form : UpdateForm)
    (image : Option FileUpload) (freshUuid : String)
    (incidents : List IncidentRow) (files : List String) :
    (∀ inc, lookupIncident incidents incident_id = some inc →
      ¬inc.user_id = uid →
      update_incident secure uid incident_id form image freshUuid incidents
          files =
        ⟨⟨403, "You do not have permission to update this incident."⟩,
         incidents, files⟩) ∧
    (lookupIncident incidents incident_id = none →
      update_incident secure uid incident_id form image freshUuid incidents
          files =
        ⟨⟨404, "Incident not found."⟩, incidents, files⟩) := by
  constructor
  · intro inc h hne
    simp [update_incident, h, hne]
  · intro h
    simp [update_incident, h]

/-- C4 (witness): a non-owner update of an existing incident is rejected
with 403 and nothing changes; updating a missing id gives 404. -/
theorem C4_witness :
    update_incident (fun s => s) "mallory" "i1"
        ⟨some "x", none, none, none⟩ none "uu"
        [⟨"i1", "owner1", "t", "d", "1", "2", none, 0⟩] [] =
      ⟨⟨403, "You do not have permission to update this incident."⟩,
       [⟨"i1", "owner1", "t", "d", "1", "2", none, 0⟩], []⟩ ∧
    update_incident (fun s => s) "mallory" "i2"
        ⟨some "x", none, none, none⟩ none "uu"
        [⟨"i1", "owner1", "t", "d", "1", "2", none, 0⟩] [] =
      ⟨⟨404, "Incident not found."⟩,
       [⟨"i1", "owner1", "t", "d", "1", "2", none, 0⟩], []⟩ := by
  constructor
  · exact (C4_update_forbidden_or_notfound (fun s => s) "mallory" "i1"
      ⟨some "x", none, none, none⟩ none "uu"
      [⟨"i1", "owner1", "t", "d", "1", "2", none, 0⟩] []).1
      ⟨"i1", "owner1", "t", "d", "1", "2", none, 0⟩ (by decide) (by decide)
  · exact (C4_update_forbidden_or_notfound (fun s => s) "mallory" "i2"
      ⟨some "x", none, none, none⟩ none "uu"
      [⟨"i1", "owner1", "t", "d", "1", "2", none, 0⟩] []).2 (by decide)

/-- C5: in both implementation variants, a create request that omits any
of title, description, lat or long yields a 400 response and leaves the
incident table unchanged. -/
theorem C5_create_missing_required_field (secure : String → String)
    (parseIso : String → Option Nat) (uid : String) (form : CreateForm)
    (created_at_str : Option String) (image : Option FileUpload)
    (freshUuid freshIncId : String) (now : Nat)
    (incidents : List IncidentRow) (files : List String)
    (hmiss : form.title = none ∨ form.description = none ∨
      form.lat = none ∨ form.long = none) :
    ((create_incident_pg secure uid form image freshUuid freshIncId now
        incidents files).response.status = 400 ∧
     (create_incident_pg secure uid form image freshUuid freshIncId now
        incidents files).incidents = incidents) ∧
    ((create_incident_pr secure parseIso uid form created_at_str image
        freshUuid freshIncId now incidents files).response.status = 400 ∧
     (create_incident_pr secure parseIso uid form created_at_str image
        freshUuid freshIncId now incidents files).incidents = incidents ∧
     (create_incident_pr secure parseIso uid form created_at_str image
        freshUuid freshIncId now incidents files).files = files) := by
  have hfal : (falsyStr form.title || falsyStr form.description ||
      falsyStr form.lat || falsyStr form.long) = true := by
    rcases hmiss with h | h | h | h <;> simp [h, falsyStr]
  constructor
  · have hstep : ∀ (iu : Option String) (fs : List String),
        (pgInsertStep uid form iu freshIncId now incidents fs).response.status
          = 400 ∧
        (pgInsertStep uid form iu freshIncId now incidents fs).incidents
          = incidents := by
      intro iu fs
      simp [pgInsertStep, hfal]
    rcases image with _ | f
    · exact hstep none files
    · simp only [create_incident_pg]
      split
      · exact hstep _ _
      · split
        · exact ⟨rfl, rfl⟩
        · exact hstep _ _
  · simp [create_incident_pr, hfal]

/-- C5 (witness): creating with the title omitted (variant pg with an
absent image, variant pr likewise) returns 400 and persists nothing. -/
theorem C5_witness :
    (create_incident_pg (fun s => s) "u1" ⟨none, some "d", some "1", some "2"⟩
      none "uu" "ii" 0 [] []).response.status = 400 ∧
    (create_incident_pg (fun s => s) "u1" ⟨none, some "d", some "1", some "2"⟩
      none "uu" "ii" 0 [] []).incidents = [] ∧
    (create_incident_pr (fun s => s) (fun _ => none) "u1"
      ⟨none, some "d", some "1", some "2"⟩ none none "uu" "ii" 0 []
      []).response.status = 400 ∧
    (create_incident_pr (fun s => s) (fun _ => none) "u1"
      ⟨none, some "d", some "1", some "2"⟩ none none "uu" "ii" 0 []
      []).incidents = [] := by
  have h := C5_create_missing_required_field (fun s => s) (fun _ => none)
    "u1" ⟨none, some "d", some "1", some "2"⟩ none none "uu" "ii" 0 [] []
    (Or.inl rfl)
  exact ⟨h.1.1, h.1.2, h.2.1, h.2.2.1⟩

/-- C6: a successful owner update — whether the supplied subset of
{title, description, lat, long, image} contains an image upload or not —
returns 200 and rewrites exactly the matching row through `applyPatch`
(with the fresh upload path when an image was supplied); and `applyPatch`
changes exactly the supplied fields — every absent field, and the id,
owner and creation timestamp, keep their prior values. -/
theorem C6_partial_update_frame (secure : String → String)
    (uid incident_id : String) (form : UpdateForm) (freshUuid : String)
    (incidents : List IncidentRow) (files : List String) (inc : IncidentRow)
    (hfind : lookupIncident incidents incident_id = some inc)
    (hown : inc.user_id = uid) :
    (¬(form.title = none ∧ form.description = none ∧
        form.lat = none ∧ form.long = none) →
      update_incident secure uid incident_id form none freshUuid incidents
          files =
        ⟨⟨200, "Incident updated successfully."⟩,
         incidents.map (fun r =>
           if r.incident_id == incident_id then applyPatch r form none
           else r),
         files⟩) ∧
    (∀ f : FileUpload, ¬f.filename = "" → allowed_file f.filename = true →
      update_incident secure uid incident_id form (some f) freshUuid
          incidents files =
        ⟨⟨200, "Incident updated successfully."⟩,
         incidents.map (fun r =>
           if r.incident_id == incident_id then
             applyPatch r form
               (some ("/uploads/" ++ (freshUuid ++ "_" ++ secure f.filename)))
           else r),
         files ++ [freshUuid ++ "_" ++ secure f.filename]⟩) ∧
    (∀ (r : IncidentRow) (f : UpdateForm) (iu : Option String),
      (f.title = none → (applyPatch r f iu).title = r.title) ∧
      (∀ v, f.title = some v → (applyPatch r f iu).title = v) ∧
      (f.description = none →
        (applyPatch r f iu).description = r.description) ∧
      (∀ v, f.description = some v → (applyPatch r f iu).description = v) ∧
      (f.lat = none → (applyPatch r f iu).lat = r.lat) ∧
      (∀ v, f.lat = some v → (applyPatch r f iu).lat = v) ∧
      (f.long = none → (applyPatch r f iu).long = r.long) ∧
      (∀ v, f.long = some v → (applyPatch r f iu).long = v) ∧
      (iu = none → (applyPatch r f iu).image_url = r.image_url) ∧
      (∀ u, iu = some u → (applyPatch r f iu).image_url = some u) ∧
      (applyPatch r f iu).incident_id = r.incident_id ∧
      (applyPatch r f iu).user_id = r.user_id ∧
      (applyPatch r f iu).created_at = r.created_at) := by
  refine ⟨?_, ?_, ?_⟩
  · intro hsome
    simp only [update_incident, hfind, hown]
    simp only [Option.isNone_none, Bool.and_true, Option.isNone_iff_eq_none]
    have hcond : ¬(form.title.isNone && form.description.isNone &&
        form.lat.isNone && form.long.isNone) = true := by
      simp only [Bool.and_eq_true, Option.isNone_iff_eq_none]
      intro hcc
      exact hsome ⟨hcc.1.1.1, hcc.1.1.2, hcc.1.2, hcc.2⟩
    rw [if_neg hcond]
    simp
  · intro f hfn hallow
    simp only [update_incident, hfind, hown]
    simp [hfn, hallow]
  · intro r f iu
    refine ⟨fun h => by simp [applyPatch, h],
      fun v h => by simp [applyPatch, h],
      fun h => by simp [applyPatch, h],
      fun v h => by simp [applyPatch, h],
      fun h => by simp [applyPatch, h],
      fun v h => by simp [applyPatch, h],
      fun h => by simp [applyPatch, h],
      fun v h => by simp [applyPatch, h],
      fun h => by simp [applyPatch, h],
      fun u h => by simp [applyPatch, h],
      rfl, rfl, rfl⟩

/-- C6 (witness): the owner updates only the title (everything else keeps
its stored value), and separately supplies only an image (every form
field keeps its stored value and only image_url changes). -/
theorem C6_witness :
    (update_incident (fun s => s) "owner1" "i1"
        ⟨some "newT", none, none, none⟩ none "uu"
        [⟨"i1", "owner1", "t0", "d0", "1", "2", none, 0⟩] [] =
      ⟨⟨200, "Incident updated successfully."⟩,
       [⟨"i1", "owner1", "newT", "d0", "1", "2", none, 0⟩], []⟩) ∧
    (update_incident (fun s => s) "owner1" "i1"
        ⟨none, none, none, none⟩ (some ⟨"b.png"⟩) "uu"
        [⟨"i1", "owner1", "t0", "d0", "1", "2", none, 0⟩] [] =
      ⟨⟨200, "Incident updated successfully."⟩,
       [⟨"i1", "owner1", "t0", "d0", "1", "2",
         some "/uploads/uu_b.png", 0⟩], ["uu_b.png"]⟩) := by
  have h := C6_partial_update_frame (fun s => s) "owner1" "i1"
    ⟨some "newT", none, none, none⟩ "uu"
    [⟨"i1", "owner1", "t0", "d0", "1", "2", none, 0⟩] []
    ⟨"i1", "owner1", "t0", "d0", "1", "2", none, 0⟩
    (by decide) rfl
  have h2 := C6_partial_update_frame (fun s => s) "owner1" "i1"
    ⟨none, none, none, none⟩ "uu"
    [⟨"i1", "owner1", "t0", "d0", "1", "2", none, 0⟩] []
    ⟨"i1", "owner1", "t0", "d0", "1", "2", none, 0⟩
    (by decide) rfl
  exact ⟨(h.1 (by simp)).trans (by decide),
    (h2.2.1 ⟨"b.png"⟩ (by decide) (by decide)).trans (by decide)⟩

/-- C7 (counterexample): the claim "register yields Conflict for every
password value whatsoever" is false: with a username that already exists
and the empty-string password, the handler's falsiness guard fires first
and returns 400, not 409. -/
theorem C7_counterexample :
    (∃ u ∈ [(⟨"u1", "alice", "h1"⟩ : UserRow)], u.username = "alice") ∧
    (register (fun s => s) [⟨"u1", "alice", "h1"⟩] (some "alice") (some "")
      "fresh").response = ⟨400, "Username and password are required."⟩ ∧
    ¬(register (fun s => s) [⟨"u1", "alice", "h1"⟩] (some "alice") (some "")
      "fresh").response.status = 409 := by
  exact ⟨by decide, by decide, by decide⟩

/-- C7 (amended): for every username already present (nonempty as stored)
and every nonempty supplied password, register yields Conflict 409 and the
user table is unchanged. -/
theorem C7_register_conflict (gen : String → String) (users : List UserRow)
    (uname pw freshId : String) (u : UserRow) (hmem : u ∈ users)
    (huname : u.username = uname) (hun : ¬uname = "") (hpw : ¬pw = "") :
    register gen users (some uname) (some pw) freshId =
      ⟨⟨409, "User already exists."⟩, none, users⟩ := by
  have hsome : (lookupUser users uname).isSome := by
    rw [lookupUser, List.find?_isSome]
    exact ⟨u, hmem, by simp [huname]⟩
  obtain ⟨v, hv⟩ := Option.isSome_iff_exists.mp hsome
  rw [register]
  simp [falsyStr, hun, hpw, hv]

/-- C7 (witness): registering an existing username with a fresh nonempty
password is rejected with 409 and stores nothing. -/
theorem C7_witness :
    register (fun s => s) [⟨"u1", "alice", "h1"⟩] (some "alice")
      (some "pw2") "fresh" =
      ⟨⟨409, "User already exists."⟩, none, [⟨"u1", "alice", "h1"⟩]⟩ := by
  exact C7_register_conflict (fun s => s) [⟨"u1", "alice", "h1"⟩] "alice"
    "pw2" "fresh" ⟨"u1", "alice", "h1"⟩ (by decide) rfl (by decide)
    (by decide)

/-- C8: a login that fails because the username is unknown and a login
that fails because the password is wrong for an existing username produce
identical outputs — the same 401 response, no token, and an unchanged
token store. -/
theorem C8_login_failure_uniform (chk : String → String → Bool)
    (users : List UserRow) (toks : List TokenRow)
    (uname1 uname2 p1 p2 f1 f2 : String) (t1 t2 : Nat) (u : UserRow)
    (h1 : ¬uname1 = "") (h2 : ¬p1 = "") (h3 : ¬uname2 = "")
    (h4 : ¬p2 = "") (hno : lookupUser users uname1 = none)
    (hsome : lookupUser users uname2 = some u)
    (hwrong : chk u.password_hash p2 = false) :
    login chk users toks (some uname1) (some p1) f1 t1 =
      login chk users toks (some uname2) (some p2) f2 t2 ∧
    login chk users toks (some uname1) (some p1) f1 t1 =
      ⟨⟨401, "Invalid username or password."⟩, none, toks⟩ := by
  have e1 : login chk users toks (some uname1) (some p1) f1 t1 =
      ⟨⟨401, "Invalid username or password."⟩, none, toks⟩ := by
    rw [login]
    simp [falsyStr, h1, h2, hno]
  have e2 : login chk users toks (some uname2) (some p2) f2 t2 =
      ⟨⟨401, "Invalid username or password."⟩, none, toks⟩ := by
    rw [login]
    simp [falsyStr, h3, h4, hsome, hwrong]
  exact ⟨e1.trans e2.symm, e1⟩

/-- C8 (witness): an unknown user "bob" and a wrong password for the
existing "alice" yield byte-for-byte the same output. -/
theorem C8_witness :
    login (fun hs ps => hs == ps) [⟨"u1", "alice", "pw1"⟩] []
        (some "bob") (some "x") "f1" 0 =
      login (fun hs ps => hs == ps) [⟨"u1", "alice", "pw1"⟩] []
        (some "alice") (some "wrong") "f2" 7 ∧
    login (fun hs ps => hs == ps) [⟨"u1", "alice", "pw1"⟩] []
        (some "bob") (some "x") "f1" 0 =
      ⟨⟨401, "Invalid username or password."⟩, none, []⟩ := by
  exact C8_login_failure_uniform (fun hs ps => hs == ps)
    [⟨"u1", "alice", "pw1"⟩] [] "bob" "alice" "x" "wrong" "f1" "f2" 0 7
    ⟨"u1", "alice", "pw1"⟩ (by decide) (by decide) (by decide) (by decide)
    (by decide) (by decide) (by decide)

/-- C10: in the app_postgresql.py variant, a create request carrying an
image with an allowed extension but omitting a required field returns 400
with the incident table unchanged, yet the uploaded file has already been
saved into the uploads directory. -/
theorem C10_upload_saved_before_validation (secure : String → String)
    (uid : String) (form : CreateForm) (f : FileUpload)
    (freshUuid freshIncId : String) (now : Nat)
    (incidents : List IncidentRow) (files : List String)
    (hfn : ¬f.filename = "") (hallow : allowed_file f.filename = true)
    (hmiss : form.title = none ∨ form.description = none ∨
      form.lat = none ∨ form.long = none) :
    create_incident_pg secure uid form (some f) freshUuid freshIncId now
        incidents files =
      ⟨⟨400, "Missing required fields"⟩, incidents,
       files ++ [freshUuid ++ "_" ++ secure f.filename]⟩ := by
  have hfal : (falsyStr form.title || falsyStr form.description ||
      falsyStr form.lat || falsyStr form.long) = true := by
    rcases hmiss with h | h | h | h <;> simp [h, falsyStr]
  rw [create_incident_pg]
  simp [hfn, hallow, pgInsertStep, hfal]

/-- C10 (witness): a .png upload together with a missing title leaves the
file "uu_a.png" on disk while no incident is created. -/
theorem C10_witness :
    create_incident_pg (fun s => s) "u1" ⟨none, some "d", some "1", some "2"⟩
        (some ⟨"a.png"⟩) "uu" "ii" 0 [] [] =
      ⟨⟨400, "Missing required fields"⟩, [], ["uu_a.png"]⟩ := by
  exact C10_upload_saved_before_validation (fun s => s) "u1"
    ⟨none, some "d", some "1", some "2"⟩ ⟨"a.png"⟩ "uu" "ii" 0 [] []
    (by decide) (by decide) (Or.inl rfl)

end Ajali
